import Mathlib

/-!
Verification development for the atlas_forge versioned element store and its
ingestion/diff pipeline. The definitions shallowly embed the Python source:

* `update_latest_metadata_version` / `update_latest_content_version` embed the
  two PL/pgSQL trigger functions of `TRIGGER_DDL` in `src/atlas_forge/db.py`.
* `dfs_notion_tree` embeds the recursive normalizer of
  `src/atlas_forge/core/normalize.py` (`dfs_notion_tree`), and
  `sync_from_notion` embeds the surrounding transaction, status and fan-out
  logic of the task of the same name.
* `diff_elements` and `diff_structure` embed the two diff jobs of
  `src/atlas_forge/core/diff.py`, with database reads, JSON parsing outcomes
  and the text-diff/json-diff library calls passed in as explicit inputs.
* `handle_notion_webhook` embeds the webhook route of
  `src/atlas_forge/routes/public/documents.py`.

Timestamps are modelled as `Nat`, database rows as Lean structures, and a
stored JSON column as `Option (Persisted α)` (`none` = SQL NULL, `malformed` =
text that does not parse, `valid a` = text that parses to `a`). A Python
exception escaping a function is modelled by an `Option PyExc` component of
the result; SQLAlchemy session semantics are modelled by returning the rows a
run commits (a run that raises before `session.commit()` commits nothing).
-/

namespace AtlasForge

/-! ### Version store: trigger functions of `TRIGGER_DDL` (src/atlas_forge/db.py) -/

/-- The cached pointer fields of one `document_elements` row
(`src/atlas_forge/models/db_models.py`, `DocumentElement`). -/
structure ElementPointers where
  latest_metadata_version : Option Nat
  latest_content_version : Option Nat
  latest_content_hash : Option String
deriving Repr, DecidableEq

/-- Trigger function `update_latest_metadata_version`: on insert of a metadata
row with timestamp `v`, set the cached pointer when it is NULL or `v` is
strictly greater than it. -/
def update_latest_metadata_version (p : ElementPointers) (v : Nat) : ElementPointers :=
  match p.latest_metadata_version with
  | none => { p with latest_metadata_version := some v }
  | some cur =>
      if cur < v then { p with latest_metadata_version := some v } else p

/-- Trigger function `update_latest_content_version`: on insert of a content
row with timestamp `v` and hash `hsh`, set the cached pointer and hash when the
pointer is NULL or `v` is strictly greater than it. -/
def update_latest_content_version (p : ElementPointers) (v : Nat) (hsh : String) :
    ElementPointers :=
  match p.latest_content_version with
  | none => { p with latest_content_version := some v, latest_content_hash := some hsh }
  | some cur =>
      if cur < v then
        { p with latest_content_version := some v, latest_content_hash := some hsh }
      else p

/-- One element's version history: its cached pointers plus the version rows
of its two version tables (a metadata row is kept as its timestamp, a content
row as timestamp and hash). -/
structure ElementVersionState where
  ptrs : ElementPointers
  metadataRows : List Nat
  contentRows : List (Nat × String)
deriving Repr, DecidableEq

/-- An insert into one of the two version tables for a fixed element. -/
inductive VersionInsert where
  | metadata (v : Nat)
  | content (v : Nat) (hsh : String)
deriving Repr, DecidableEq

/-- An `INSERT` on `document_element_metadatas` / `document_element_contents`
together with its `AFTER INSERT` trigger: the row is appended and the cached
pointer conditionally updated, atomically. -/
def insertVersionRow (s : ElementVersionState) : VersionInsert → ElementVersionState
  | .metadata v =>
      { s with
        metadataRows := v :: s.metadataRows
        ptrs := update_latest_metadata_version s.ptrs v }
  | .content v hsh =>
      { s with
        contentRows := (v, hsh) :: s.contentRows
        ptrs := update_latest_content_version s.ptrs v hsh }

/-- A fresh element: NULL pointers and no version rows. -/
def emptyElementState : ElementVersionState :=
  { ptrs := { latest_metadata_version := none, latest_content_version := none,
              latest_content_hash := none }
    metadataRows := [], contentRows := [] }

/-- Run a sequence of version-row inserts against a fresh element. -/
def runInserts (l : List VersionInsert) : ElementVersionState :=
  l.foldl insertVersionRow emptyElementState

/-- `MAX(version)` over a list of version timestamps, `none` on an empty table. -/
def listMaxOpt : List Nat → Option Nat
  | [] => none
  | v :: t =>
      match listMaxOpt t with
      | none => some v
      | some m => some (Nat.max v m)

/-- The trigger's guard, as stated: the insert advances the pointer exactly
when the cached value is NULL or strictly smaller than the new timestamp. -/
def pointerAdvances (cur : Option Nat) (v : Nat) : Bool :=
  match cur with
  | none => true
  | some c => decide (c < v)

/-! ### Normalizer: `dfs_notion_tree` (src/atlas_forge/core/normalize.py) -/

/-- One entry of a Notion rich-text array: its `plain_text` field and, when the
entry carries a `text` object, that object's `content`. -/
structure RichTextItem where
  plain_text : String
  text_content : Option String
deriving Repr, DecidableEq

/-- Helper `extract_text_from_rich_text`: concatenate the `plain_text` fields,
and the `text.content` fields of the entries that have a `text` object. -/
def extract_text_from_rich_text (items : List RichTextItem) : String × String :=
  (String.join (items.map (·.plain_text)),
   String.join (items.filterMap (·.text_content)))

/-- One block of the external Notion tree, as the traversal consumes it:
id, type, rich-text content, the `has_children` flag, and the children the
API would return for it. -/
inductive NotionBlock where
  | node (id : String) (block_type : String) (rich_text : List RichTextItem)
      (has_children : Bool) (children : List NotionBlock)

/-- The read view of a stored `document_elements` row, as
`db_get_document_element_by_id` returns it to the traversal. -/
structure DocumentElement where
  id : String
  document_id : String
  element_type : String
  latest_content_hash : Option String
deriving Repr, DecidableEq

/-- One row of `document_element_metadatas`. -/
structure DocumentElementMetadata where
  document_element_id : String
  version : Nat
  level : Nat
  parent_element : Option String
  position : Nat
deriving Repr, DecidableEq

/-- One row of `document_element_contents`. -/
structure DocumentElementContent where
  document_element_id : String
  version : Nat
  content_raw : String
  hash_raw : String
  content_formatted : String
deriving Repr, DecidableEq

/-- One node of the nested `document_structure` the traversal assembles:
in the source, a single-key dict mapping the child id to the list of its
child structures. -/
inductive DocStructure where
  | node (id : String) (children : List DocStructure)

/-- Everything one traversal adds to the session, plus its return value.
`struct` and `changed` are the function's return tuple; `newElements`,
`metadataRows` and `contentRows` are the rows handed to `session.add` in
traversal order. `visited` is instrumentation only: the structural facts
(level, parent, position) the pass observes for every visited block, whether
or not any row is written for it. -/
structure DfsResult where
  struct : List DocStructure
  newElements : List String
  metadataRows : List DocumentElementMetadata
  contentRows : List DocumentElementContent
  changed : List DocumentElementContent
  visited : List DocumentElementMetadata

/-- The empty traversal result. -/
def emptyDfsResult : DfsResult := ⟨[], [], [], [], [], []⟩

/-- The recursive traversal `dfs_notion_tree`. `hash` stands for the
`blake2b` hex digest of the UTF-8 encoded plain text; `db` is the committed
`document_elements` table the per-block lookup reads; `ts` is the
`snapshot_timestamp` used as version for every row of the pass; `document_id`
is the owning document. Per block: extract text, hash it, look the element up;
when absent create element + initial metadata + initial content, when present
with a different cached hash append a content row and record it as changed,
otherwise write nothing. The position counter advances by one per block and,
after recursing into a block's children, by the length of the returned child
structure (the number of direct children). -/
def dfs_notion_tree (hash : String → String) (db : List DocumentElement)
    (document_id : String) (ts : Nat) (block_id : String) (depth position : Nat) :
    List NotionBlock → DfsResult
  | [] => emptyDfsResult
  | NotionBlock.node child_id _child_type rich_text has_children children :: rest =>
    let texts := extract_text_from_rich_text rich_text
    let raw_text := texts.1
    let formatted_text := texts.2
    let element_hash := hash raw_text
    let old_element := db.find? (fun e => e.id == child_id)
    let selfNew : List String :=
      match old_element with
      | none => [child_id]
      | some _ => []
    let selfMeta : List DocumentElementMetadata :=
      match old_element with
      | none => [⟨child_id, ts, depth, if depth > 0 then some block_id else none, position⟩]
      | some _ => []
    let selfContent : List DocumentElementContent :=
      match old_element with
      | none => [⟨child_id, ts, raw_text, element_hash, formatted_text⟩]
      | some old =>
          if old.latest_content_hash == some element_hash then []
          else [⟨child_id, ts, raw_text, element_hash, formatted_text⟩]
    let selfChanged : List DocumentElementContent :=
      match old_element with
      | none => []
      | some old =>
          if old.latest_content_hash == some element_hash then []
          else [⟨child_id, ts, raw_text, element_hash, formatted_text⟩]
    let childRes :=
      if has_children then
        dfs_notion_tree hash db document_id ts child_id (depth + 1) (position + 1) children
      else emptyDfsResult
    let restRes :=
      dfs_notion_tree hash db document_id ts block_id depth
        (position + 1 + childRes.struct.length) rest
    { struct := DocStructure.node child_id childRes.struct :: restRes.struct
      newElements := selfNew ++ childRes.newElements ++ restRes.newElements
      metadataRows := selfMeta ++ childRes.metadataRows ++ restRes.metadataRows
      contentRows := selfContent ++ childRes.contentRows ++ restRes.contentRows
      changed := selfChanged ++ childRes.changed ++ restRes.changed
      visited :=
        ⟨child_id, ts, depth, if depth > 0 then some block_id else none, position⟩
          :: (childRes.visited ++ restRes.visited) }
termination_by bs => sizeOf bs
decreasing_by
  all_goals simp
  all_goals omega

/-- The source is unchanged relative to the store, in the sense of the
idempotent re-ingestion property: every block the traversal visits already has
a `document_elements` row whose cached hash equals the hash of the block's
plain text (children are required to match only when the traversal descends
into them). -/
def source_unchanged (hash : String → String) (db : List DocumentElement) :
    List NotionBlock → Bool
  | [] => true
  | NotionBlock.node child_id _ rich_text has_children children :: rest =>
    (match db.find? (fun e => e.id == child_id) with
     | none => false
     | some old =>
         old.latest_content_hash == some (hash (extract_text_from_rich_text rich_text).1))
    && (!has_children || source_unchanged hash db children)
    && source_unchanged hash db rest
termination_by bs => sizeOf bs
decreasing_by
  all_goals simp
  all_goals omega

/-! ### Persisted JSON columns and the snapshot row -/

/-- A stored JSON text column, seen through `json.loads`: either it parses to a
value or it is malformed. (`NULL` is represented by wrapping in `Option`.) -/
inductive Persisted (α : Type) where
  | valid (value : α)
  | malformed

/-- The summary `diff_structure` writes: element counts plus the raw diff
payload produced by the JSON diff library. -/
structure StructureDiffSummary where
  old_elements_count : Nat
  new_elements_count : Nat
  raw_diff : String

/-- The `snapshots` row fields the pipeline reads and writes
(`src/atlas_forge/models/db_models.py`, `Snapshot`). -/
structure Snapshot where
  status : String
  error : Option String
  executed_at : Option Nat
  document_structure : Option (Persisted (List DocStructure))
  document_structure_diff : Option StructureDiffSummary
  changed_elements : Option (Persisted (List String))
  changed_elements_diff : Option (List (String × String))

/-- A Python exception escaping one of the embedded functions. -/
inductive PyExc where
  | valueError
  | jsonDecodeError
  | typeError
  | attributeError
  | apiResponseError
  | otherError
deriving Repr, DecidableEq

/-! ### Orchestration: `sync_from_notion` (src/atlas_forge/core/normalize.py) -/

/-- The outcome of the external side of one sync: the page and block fetches
either all succeed, yielding the root's children tree, or some call raises a
Notion `APIResponseError`, or some other exception (a consistency error such
as an unexpected node shape, a store error, ...) is raised inside the guarded
region. -/
inductive FetchOutcome where
  | success (blocks : List NotionBlock)
  | apiError (msg : String)
  | otherError (msg : String)

/-- The effect of one `sync_from_notion` run: the rows its transaction
committed, the snapshot row as left behind, whether the two diff jobs were
enqueued, and the exception the task re-raised, if any. -/
structure SyncRunResult where
  persistedElements : List String
  persistedMetadata : List DocumentElementMetadata
  persistedContent : List DocumentElementContent
  snapshot : Snapshot
  diffJobsEnqueued : Bool
  raised : Option PyExc

/-- The task `sync_from_notion`, after the snapshot has been fetched. Its call
to `db_set_snapshot_pending` has no effect on committed state: that helper
executes its UPDATE inside a `Session()` block that is closed without commit
(the sessionmaker has `autocommit=False`), so the pending mark is rolled back
and the snapshot keeps its prior status. On a successful fetch the task runs
the traversal inside one session, writes structure/changed-elements/status
onto the snapshot, commits, and enqueues the two diff jobs exactly when the
document pre-existed (`is_update`). On `APIResponseError` it only re-raises:
nothing is committed and the snapshot row is left exactly as it was. On any
other exception nothing from the traversal is committed and the snapshot is
updated, in a fresh committed session, to status `error` with a message. -/
def sync_from_notion (hash : String → String) (documentDb : List String)
    (db : List DocumentElement) (ts : Nat) (snapshot : Snapshot)
    (notion_page_id : String) (fetch : FetchOutcome) : SyncRunResult :=
  match fetch with
  | .success blocks =>
      let is_update := documentDb.contains notion_page_id
      let res := dfs_notion_tree hash db notion_page_id ts notion_page_id 0 0 blocks
      let changed_ids := res.changed.map (·.document_element_id)
      { persistedElements := res.newElements
        persistedMetadata := res.metadataRows
        persistedContent := res.contentRows
        snapshot :=
          { snapshot with
            document_structure := some (.valid res.struct)
            changed_elements := some (.valid changed_ids)
            executed_at := some ts
            status := if res.changed.isEmpty || !is_update then "done" else "processing_diffs" }
        diffJobsEnqueued := is_update
        raised := none }
  | .apiError _ =>
      { persistedElements := []
        persistedMetadata := []
        persistedContent := []
        snapshot := snapshot
        diffJobsEnqueued := false
        raised := some .apiResponseError }
  | .otherError msg =>
      { persistedElements := []
        persistedMetadata := []
        persistedContent := []
        snapshot :=
          { snapshot with
            status := "error"
            error := some ("Processing failed: " ++ msg)
            executed_at := some ts }
        diffJobsEnqueued := false
        raised := some .otherError }

/-! ### Diff jobs (src/atlas_forge/core/diff.py) -/

/-- The task `diff_elements`. `contentPair` stands for
`db_get_latest_content_pair_by_id` (at most the two most recent content rows,
newest first); `udiff` stands for the `difflib.unified_diff` text built for an
element from its two versions. On a missing snapshot it raises `ValueError`.
A NULL `changed_elements` column makes `json.loads` raise `TypeError`, which
the generic handler turns into status `error`; a malformed column raises
`JSONDecodeError`, which is re-raised without touching the snapshot. Otherwise
every changed element with at least two content versions contributes one
unified diff, and the mapping is written back onto the snapshot. -/
def diff_elements (contentPair : String → List DocumentElementContent)
    (udiff : String → DocumentElementContent → DocumentElementContent → String)
    (snapshot : Option Snapshot) : Option Snapshot × Option PyExc :=
  match snapshot with
  | none => (none, some .valueError)
  | some s =>
    match s.changed_elements with
    | none =>
        (some { s with status := "error"
                       error := some "Element diff failed: the JSON object must be str" },
         some .typeError)
    | some .malformed => (some s, some .jsonDecodeError)
    | some (.valid changed) =>
        let summary := changed.foldl (fun acc element_id =>
          match contentPair element_id with
          | new_content :: old_content :: _ =>
              acc ++ [(element_id, udiff element_id old_content new_content)]
          | _ => acc) []
        (some { s with changed_elements_diff := some summary }, none)

/-- The task `diff_structure`. `jdiff` stands for `jsondiff.diff` with
symmetric syntax, serialized. On a missing snapshot it raises `ValueError`.
When `db_get_previous_snapshot` finds no previous snapshot the code only logs
a warning and falls through, so `old_snapshot.document_structure` raises
`AttributeError` and the generic handler records status `error`; a previous
snapshot with a NULL structure makes `json.loads` raise `TypeError` with the
same outcome; a malformed stored structure raises `JSONDecodeError`, which is
re-raised without touching the snapshot. Otherwise the summary (old/new
element counts plus raw diff) is written back onto the snapshot. -/
def diff_structure (jdiff : List DocStructure → List DocStructure → String)
    (snapshot : Option Snapshot) (old_snapshot : Option Snapshot)
    (new_structure : List DocStructure) : Option Snapshot × Option PyExc :=
  match snapshot with
  | none => (none, some .valueError)
  | some s =>
    match old_snapshot with
    | none =>
        (some { s with status := "error"
                       error := some "Structure diff failed: NoneType has no attribute" },
         some .attributeError)
    | some old =>
      match old.document_structure with
      | none =>
          (some { s with status := "error"
                         error := some "Structure diff failed: the JSON object must be str" },
           some .typeError)
      | some .malformed => (some s, some .jsonDecodeError)
      | some (.valid old_structure) =>
          (some { s with
                  document_structure_diff :=
                    some ⟨old_structure.length, new_structure.length,
                          jdiff old_structure new_structure⟩ },
           none)

/-- The claimed pointer/rows consistency of one element: each cached pointer
equals the maximum version timestamp among that element's rows, or is NULL
when no rows exist. -/
def pointersMatchMax (s : ElementVersionState) : Prop :=
  s.ptrs.latest_metadata_version = listMaxOpt s.metadataRows ∧
  s.ptrs.latest_content_version = listMaxOpt (s.contentRows.map Prod.fst)

/-- The at-most-one-version-per-unchanged-content condition for one written
content row: the element either had no stored row yet, or its cached hash
differs from the hash of the newly observed content. -/
def contentRowOnlyWhenHashDiffers (db : List DocumentElement)
    (r : DocumentElementContent) : Bool :=
  match db.find? (fun e => e.id == r.document_element_id) with
  | none => true
  | some old => old.latest_content_hash != some r.hash_raw

/-! ### Concrete inputs used by counterexamples and witnesses -/

/-- A two-level-deep block tree: `b` has child `c`, `c` has child `d`, and `e`
is `b`'s sibling at the root. -/
def depthTwoBlocks : List NotionBlock :=
  [ .node "b" "paragraph" [⟨"b-text", some "b-text"⟩] true
      [ .node "c" "paragraph" [⟨"c-text", some "c-text"⟩] true
          [ .node "d" "paragraph" [⟨"d-text", some "d-text"⟩] false [] ] ],
    .node "e" "paragraph" [⟨"e-text", some "e-text"⟩] false [] ]

/-- A single childless block `A` with plain text `a-text`. -/
def unchangedBlock : NotionBlock := .node "A" "paragraph" [⟨"a-text", some "a-text"⟩] false []

/-- A store in which `A` is already present, with cached hash equal to the
identity hash of its plain text. -/
def unchangedStore : List DocumentElement := [⟨"A", "doc-1", "paragraph", some "a-text"⟩]

/-- A store in which `X` is already present with matching cached hash. -/
def movedElementStore : List DocumentElement := [⟨"X", "doc-1", "paragraph", some "x-text"⟩]

/-- The current stored metadata version of `X`: level 0, position 0. -/
def movedElementStoredMetadata : DocumentElementMetadata := ⟨"X", 0, 0, none, 0⟩

/-- A pass in which a new block `Y` now precedes `X` at the root, so the pass
observes `X` at position 1 while its stored metadata says position 0. -/
def movedBlocks : List NotionBlock :=
  [ .node "Y" "paragraph" [⟨"y-text", some "y-text"⟩] false [],
    .node "X" "paragraph" [⟨"x-text", some "x-text"⟩] false [] ]

/-- A freshly created snapshot row (status `open`, nothing recorded yet). -/
def preSnapshot : Snapshot :=
  { status := "open", error := none, executed_at := none, document_structure := none
    document_structure_diff := none, changed_elements := none, changed_elements_diff := none }

/-- A snapshot whose document has no preceding snapshot to diff against. -/
def orphanSnapshot : Snapshot :=
  { status := "processing_diffs", error := none, executed_at := some 5
    document_structure := some (.valid []), document_structure_diff := none
    changed_elements := some (.valid []), changed_elements_diff := none }

/-- A snapshot whose persisted `changed_elements` column does not parse. -/
def malformedSnapshot : Snapshot :=
  { status := "pending", error := none, executed_at := some 2, document_structure := none
    document_structure_diff := none, changed_elements := some .malformed
    changed_elements_diff := none }

/-! ### Webhook route (src/atlas_forge/routes/public/documents.py) -/

/-- The effect of one webhook request: the snapshots created, and either the
acknowledgment response carrying the snapshot id or the HTTP error status the
caller receives. -/
structure WebhookResult where
  createdSnapshots : List (Option String)
  response : Except Nat String

/-- The route `handle_notion_webhook` on a payload that parsed as JSON. The
local `snapshot_id` is assigned only inside the page/page branch; the final
response expression reads it unconditionally, so outside that branch the
handler raises `NameError`, the catch-all turns it into an HTTP 500, and no
snapshot is created. -/
def handle_notion_webhook (fresh_snapshot_id : String) (event_type : Option String)
    (entity_type : Option String) (entity_id : Option String) : WebhookResult :=
  let snapshot_id : Option String :=
    if event_type = some "page" ∧ entity_type = some "page" then some fresh_snapshot_id
    else none
  let created : List (Option String) :=
    if event_type = some "page" ∧ entity_type = some "page" then [entity_id] else []
  match snapshot_id with
  | some sid => { createdSnapshots := created, response := .ok sid }
  | none => { createdSnapshots := created, response := .error 500 }

/-! ## Theorems -/

/-- Inserting a metadata version keeps the cached metadata pointer equal to
the maximum of the metadata rows. -/
theorem update_latest_metadata_version_max (p : ElementPointers) (rows : List Nat)
    (v : Nat) (hp : p.latest_metadata_version = listMaxOpt rows) :
    (update_latest_metadata_version p v).latest_metadata_version = listMaxOpt (v :: rows) := by
  have hcons : listMaxOpt (v :: rows) =
      match listMaxOpt rows with
      | none => some v
      | some m => some (Nat.max v m) := rfl
  rw [hcons]
  cases hm : p.latest_metadata_version with
  | none =>
      rw [hm] at hp
      simp [update_latest_metadata_version, hm, ← hp]
  | some m =>
      rw [hm] at hp
      by_cases hlt : m < v
      · simp only [update_latest_metadata_version, hm, if_pos hlt, ← hp]
        simp [Nat.max_eq_left (Nat.le_of_lt hlt)]
      · simp only [update_latest_metadata_version, hm, if_neg hlt, ← hp]
        simp [hm, Nat.max_eq_right (Nat.le_of_not_lt hlt)]

/-- Inserting a content version keeps the cached content pointer equal to the
maximum of the content rows. -/
theorem update_latest_content_version_max (p : ElementPointers) (rows : List Nat)
    (v : Nat) (hsh : String) (hp : p.latest_content_version = listMaxOpt rows) :
    (update_latest_content_version p v hsh).latest_content_version = listMaxOpt (v :: rows) := by
  have hcons : listMaxOpt (v :: rows) =
      match listMaxOpt rows with
      | none => some v
      | some m => some (Nat.max v m) := rfl
  rw [hcons]
  cases hm : p.latest_content_version with
  | none =>
      rw [hm] at hp
      simp [update_latest_content_version, hm, ← hp]
  | some m =>
      rw [hm] at hp
      by_cases hlt : m < v
      · simp only [update_latest_content_version, hm, if_pos hlt, ← hp]
        simp [Nat.max_eq_left (Nat.le_of_lt hlt)]
      · simp only [update_latest_content_version, hm, if_neg hlt, ← hp]
        simp [hm, Nat.max_eq_right (Nat.le_of_not_lt hlt)]

/-- The metadata trigger does not touch the content pointer. -/
theorem update_latest_metadata_version_content (p : ElementPointers) (v : Nat) :
    (update_latest_metadata_version p v).latest_content_version = p.latest_content_version := by
  cases hm : p.latest_metadata_version <;>
    simp [update_latest_metadata_version, hm] <;> split <;> rfl

/-- The content trigger does not touch the metadata pointer. -/
theorem update_latest_content_version_metadata (p : ElementPointers) (v : Nat) (hsh : String) :
    (update_latest_content_version p v hsh).latest_metadata_version =
      p.latest_metadata_version := by
  cases hm : p.latest_content_version <;>
    simp [update_latest_content_version, hm] <;> split <;> rfl

/-- One triggered insert preserves the pointer/rows consistency. -/
theorem insertVersionRow_preserves (s : ElementVersionState) (i : VersionInsert)
    (h : pointersMatchMax s) : pointersMatchMax (insertVersionRow s i) := by
  obtain ⟨hm, hc⟩ := h
  cases i with
  | metadata v =>
      exact ⟨update_latest_metadata_version_max s.ptrs s.metadataRows v hm,
        by simpa [insertVersionRow, update_latest_metadata_version_content] using hc⟩
  | content v hsh =>
      exact ⟨by simpa [insertVersionRow, update_latest_content_version_metadata] using hm,
        update_latest_content_version_max s.ptrs (s.contentRows.map Prod.fst) v hsh hc⟩

/-- Any sequence of triggered inserts preserves the pointer/rows consistency. -/
theorem foldl_insertVersionRow_preserves (l : List VersionInsert) (s : ElementVersionState)
    (h : pointersMatchMax s) : pointersMatchMax (l.foldl insertVersionRow s) := by
  induction l generalizing s with
  | nil => exact h
  | cons i t ih => exact ih (insertVersionRow s i) (insertVersionRow_preserves s i h)

/-- C1: after any sequence of metadata/content version-row inserts the cached
latest-metadata-version and latest-content-version pointers equal the maximum
version timestamp among the element's metadata/content rows (NULL when no rows
exist), and a single triggered insert changes a pointer exactly when the
inserted version is strictly greater than the currently cached one (a NULL
cache counting as smaller than everything). -/
theorem trigger_latest_version_pointer_invariant :
    (∀ l : List VersionInsert,
        (runInserts l).ptrs.latest_metadata_version = listMaxOpt (runInserts l).metadataRows ∧
        (runInserts l).ptrs.latest_content_version =
          listMaxOpt ((runInserts l).contentRows.map Prod.fst)) ∧
    (∀ p : ElementPointers, ∀ v : Nat,
        ((update_latest_metadata_version p v).latest_metadata_version ≠
            p.latest_metadata_version ↔
          pointerAdvances p.latest_metadata_version v = true)) ∧
    (∀ p : ElementPointers, ∀ v : Nat, ∀ hsh : String,
        ((update_latest_content_version p v hsh).latest_content_version ≠
            p.latest_content_version ↔
          pointerAdvances p.latest_content_version v = true)) := by
  refine ⟨fun l => foldl_insertVersionRow_preserves l emptyElementState ⟨rfl, rfl⟩, ?_, ?_⟩
  · intro p v
    cases hm : p.latest_metadata_version with
    | none => simp [update_latest_metadata_version, hm, pointerAdvances]
    | some c =>
        by_cases hlt : c < v
        · simp only [update_latest_metadata_version, hm, if_pos hlt, pointerAdvances]
          constructor
          · intro _
            simpa using hlt
          · intro _ hcontra
            simp only [Option.some.injEq] at hcontra
            omega
        · simp [update_latest_metadata_version, hm, if_neg hlt, pointerAdvances, hlt]
  · intro p v hsh
    cases hm : p.latest_content_version with
    | none => simp [update_latest_content_version, hm, pointerAdvances]
    | some c =>
        by_cases hlt : c < v
        · simp only [update_latest_content_version, hm, if_pos hlt, pointerAdvances]
          constructor
          · intro _
            simpa using hlt
          · intro _ hcontra
            simp only [Option.some.injEq] at hcontra
            omega
        · simp [update_latest_content_version, hm, if_neg hlt, pointerAdvances, hlt]

/-- C2 (code bug): on the two-level tree `[b [c [d]], e]` against an empty
store, the traversal records metadata positions `[0, 1, 2, 2]` — after the
recursion into `b`'s subtree the position counter advances only by the number
of `b`'s direct children, so the descendant `d` and the sibling `e` receive the
same position 2 and the positions of one snapshot are not pairwise distinct. -/
theorem dfs_position_collision_at_depth_two :
    ((dfs_notion_tree id [] "doc-1" 7 "page-1" 0 0 depthTwoBlocks).metadataRows.map
        (fun r => (r.document_element_id, r.position))) =
      [("b", 0), ("c", 1), ("d", 2), ("e", 2)] ∧
    ¬ ((dfs_notion_tree id [] "doc-1" 7 "page-1" 0 0 depthTwoBlocks).metadataRows.map
        (·.position)).Pairwise (· ≠ ·) := by
  have h1 : ((dfs_notion_tree id [] "doc-1" 7 "page-1" 0 0 depthTwoBlocks).metadataRows.map
      (fun r => (r.document_element_id, r.position))) =
      [("b", 0), ("c", 1), ("d", 2), ("e", 2)] := by
    simp [depthTwoBlocks, dfs_notion_tree, emptyDfsResult, extract_text_from_rich_text,
      List.find?, String.join]
  have h2 : ((dfs_notion_tree id [] "doc-1" 7 "page-1" 0 0 depthTwoBlocks).metadataRows.map
      (·.position)) = [0, 1, 2, 2] := by
    simp [depthTwoBlocks, dfs_notion_tree, emptyDfsResult, extract_text_from_rich_text,
      List.find?, String.join]
  refine ⟨h1, ?_⟩
  rw [h2]
  decide

/-- A traversal over a source that is unchanged relative to the store adds no
element, metadata or content rows and reports no changed elements. -/
theorem dfs_unchanged_writes_nothing (hash : String → String) (db : List DocumentElement)
    (document_id : String) (ts : Nat) (block_id : String) (depth position : Nat)
    (blocks : List NotionBlock) (h : source_unchanged hash db blocks = true) :
    (dfs_notion_tree hash db document_id ts block_id depth position blocks).newElements = [] ∧
    (dfs_notion_tree hash db document_id ts block_id depth position blocks).metadataRows = [] ∧
    (dfs_notion_tree hash db document_id ts block_id depth position blocks).contentRows = [] ∧
    (dfs_notion_tree hash db document_id ts block_id depth position blocks).changed = [] := by
  induction block_id, depth, position, blocks using dfs_notion_tree.induct hash db document_id ts with
  | case1 block_id depth position => simp [dfs_notion_tree, emptyDfsResult]
  | case2 block_id depth position child_id ctype rich_text has_children children rest childRes ih1 ih2 =>
    unfold_let childRes at ih2
    clear childRes
    rw [source_unchanged] at h
    simp only [Bool.and_eq_true] at h
    obtain ⟨⟨hself, hchild⟩, hrest⟩ := h
    cases hfind : db.find? (fun e => e.id == child_id) with
    | none => rw [hfind] at hself; exact absurd hself (by simp)
    | some old =>
      rw [hfind] at hself
      simp only at hself
      rcases Bool.eq_false_or_eq_true has_children with hc | hc
      · subst hc
        simp only [Bool.not_true, Bool.false_or] at hchild
        have ih1s := ih1 hchild
        have ih2s := ih2 hrest
        simp at ih2s
        obtain ⟨c1, c2, c3, c4⟩ := ih1s
        rw [dfs_notion_tree]
        simp [hfind, hself, c1, c2, c3, c4, ih2s]
      · subst hc
        have ih2s := ih2 hrest
        simp [emptyDfsResult] at ih2s
        rw [dfs_notion_tree]
        simp [hfind, hself, emptyDfsResult, ih2s]

/-- Every content row a traversal writes is for an element that either is not
in the store yet or whose cached hash differs from the row's hash. -/
theorem dfs_content_rows_only_on_hash_change (hash : String → String)
    (db : List DocumentElement) (document_id : String) (ts : Nat) (block_id : String)
    (depth position : Nat) (blocks : List NotionBlock) :
    ((dfs_notion_tree hash db document_id ts block_id depth position blocks).contentRows.all
      (contentRowOnlyWhenHashDiffers db)) = true := by
  induction block_id, depth, position, blocks using dfs_notion_tree.induct hash db document_id ts with
  | case1 block_id depth position => simp [dfs_notion_tree, emptyDfsResult]
  | case2 block_id depth position child_id ctype rich_text has_children children rest childRes ih1 ih2 =>
    unfold_let childRes at ih2
    clear childRes
    rw [dfs_notion_tree]
    simp only [List.all_append, Bool.and_eq_true]
    refine ⟨⟨?_, ?_⟩, ?_⟩
    · cases hfind : db.find? (fun e => e.id == child_id) with
      | none => simp [hfind, contentRowOnlyWhenHashDiffers]
      | some old =>
        by_cases hh : (old.latest_content_hash ==
            some (hash (extract_text_from_rich_text rich_text).1)) = true
        · simp [hfind, hh]
        · simp only [Bool.not_eq_true] at hh
          simp [hfind, hh, contentRowOnlyWhenHashDiffers, bne]
    · cases hc : has_children with
      | false => simp [emptyDfsResult]
      | true => simpa using ih1
    · simpa using ih2

/-- Metadata rows are written exactly for the elements the traversal creates,
and only for blocks that have no stored element row yet. -/
theorem dfs_metadata_only_for_new (hash : String → String) (db : List DocumentElement)
    (document_id : String) (ts : Nat) (block_id : String) (depth position : Nat)
    (blocks : List NotionBlock) :
    ((dfs_notion_tree hash db document_id ts block_id depth position blocks).metadataRows.map
        (·.document_element_id)) =
      (dfs_notion_tree hash db document_id ts block_id depth position blocks).newElements ∧
    ((dfs_notion_tree hash db document_id ts block_id depth position blocks).metadataRows.all
      (fun r => (db.find? (fun e => e.id == r.document_element_id)).isNone)) = true := by
  induction block_id, depth, position, blocks using dfs_notion_tree.induct hash db document_id ts with
  | case1 block_id depth position => simp [dfs_notion_tree, emptyDfsResult]
  | case2 block_id depth position child_id ctype rich_text has_children children rest childRes ih1 ih2 =>
    unfold_let childRes at ih2
    clear childRes
    obtain ⟨c1, c2⟩ := ih1
    obtain ⟨r1, r2⟩ := ih2
    rcases Bool.eq_false_or_eq_true has_children with hc | hc <;> subst hc <;>
      simp [emptyDfsResult] at r1 r2 <;> rw [dfs_notion_tree]
    · constructor
      · simp only [List.map_append]
        cases hfind : db.find? (fun e => e.id == child_id) with
        | none => simp [hfind, c1, r1]
        | some old => simp [hfind, c1, r1]
      · simp only [List.all_append, Bool.and_eq_true]
        refine ⟨⟨?_, ?_⟩, ?_⟩
        · cases hfind : db.find? (fun e => e.id == child_id) with
          | none => simp [hfind]
          | some old => simp [hfind]
        · simpa using c2
        · simpa using r2
    · constructor
      · simp only [List.map_append]
        cases hfind : db.find? (fun e => e.id == child_id) with
        | none => simp [hfind, emptyDfsResult, r1]
        | some old => simp [hfind, emptyDfsResult, r1]
      · simp only [List.all_append, Bool.and_eq_true]
        refine ⟨⟨?_, ?_⟩, ?_⟩
        · cases hfind : db.find? (fun e => e.id == child_id) with
          | none => simp [hfind]
          | some old => simp [hfind]
        · simp [emptyDfsResult]
        · simpa using r2

/-- C3: running the Normalizer against a source that is unchanged relative to
the store (every visited block already has an element row whose cached hash
equals the hash of the block's plain text) writes zero Content version rows,
zero Metadata version rows, creates no elements and returns an empty
changed-element list; moreover in any run, every content row written for an
element already in the store has a hash different from that element's cached
hash. -/
theorem normalizer_idempotent_on_unchanged_source :
    (∀ (hash : String → String) (db : List DocumentElement) (document_id : String)
        (ts : Nat) (block_id : String) (depth position : Nat) (blocks : List NotionBlock),
      source_unchanged hash db blocks = true →
        (dfs_notion_tree hash db document_id ts block_id depth position blocks).contentRows = [] ∧
        (dfs_notion_tree hash db document_id ts block_id depth position blocks).metadataRows = [] ∧
        (dfs_notion_tree hash db document_id ts block_id depth position blocks).newElements = [] ∧
        (dfs_notion_tree hash db document_id ts block_id depth position blocks).changed = []) ∧
    (∀ (hash : String → String) (db : List DocumentElement) (document_id : String)
        (ts : Nat) (block_id : String) (depth position : Nat) (blocks : List NotionBlock),
      ((dfs_notion_tree hash db document_id ts block_id depth position blocks).contentRows.all
        (contentRowOnlyWhenHashDiffers db)) = true) := by
  constructor
  · intro hash db document_id ts block_id depth position blocks h
    obtain ⟨h1, h2, h3, h4⟩ :=
      dfs_unchanged_writes_nothing hash db document_id ts block_id depth position blocks h
    exact ⟨h3, h2, h1, h4⟩
  · exact dfs_content_rows_only_on_hash_change

/-- Witness for C3: a concrete one-block source whose only element is stored
with a matching cached hash; the second run writes nothing. -/
theorem normalizer_idempotent_on_unchanged_source_witness :
    source_unchanged id unchangedStore [unchangedBlock] = true ∧
    (dfs_notion_tree id unchangedStore "doc-1" 9 "page-1" 0 0 [unchangedBlock]).contentRows = [] ∧
    (dfs_notion_tree id unchangedStore "doc-1" 9 "page-1" 0 0 [unchangedBlock]).metadataRows = [] ∧
    (dfs_notion_tree id unchangedStore "doc-1" 9 "page-1" 0 0 [unchangedBlock]).newElements = [] ∧
    (dfs_notion_tree id unchangedStore "doc-1" 9 "page-1" 0 0 [unchangedBlock]).changed = [] :=
  have hs : source_unchanged id unchangedStore [unchangedBlock] = true := by
    simp [source_unchanged, unchangedStore, unchangedBlock, extract_text_from_rich_text,
      List.find?, String.join]
  ⟨hs, normalizer_idempotent_on_unchanged_source.1 id unchangedStore "doc-1" 9 "page-1" 0 0
    [unchangedBlock] hs⟩

/-- C5 counterexample: element `X` is stored with current metadata at level 0,
position 0; the pass observes `X` at level 0, position 1 (a new block `Y` now
precedes it), a position change — yet the run appends a metadata row only for
the new element `Y` and none for `X`. -/
theorem metadata_not_reversioned_on_position_change_cex :
    ((dfs_notion_tree id movedElementStore "doc-1" 3 "page-1" 0 0 movedBlocks).visited.map
        (fun r => (r.document_element_id, r.level, r.position))) =
      [("Y", 0, 0), ("X", 0, 1)] ∧
    (movedElementStoredMetadata.document_element_id, movedElementStoredMetadata.level,
      movedElementStoredMetadata.position) = ("X", 0, 0) ∧
    ((dfs_notion_tree id movedElementStore "doc-1" 3 "page-1" 0 0 movedBlocks).metadataRows.map
        (·.document_element_id)) = ["Y"] := by
  refine ⟨?_, rfl, ?_⟩ <;>
    simp [movedBlocks, movedElementStore, dfs_notion_tree, emptyDfsResult,
      extract_text_from_rich_text, List.find?, String.join]

/-- C5 corrected: a Normalizer pass appends Metadata rows exactly for the
elements it newly creates; for an element already present in the store no
Metadata row is ever appended, whether or not the observed position or nesting
level changed (and appending is the only mutation the pass performs on the
metadata table). -/
theorem metadata_rows_only_for_new_elements (hash : String → String)
    (db : List DocumentElement) (document_id : String) (ts : Nat) (block_id : String)
    (depth position : Nat) (blocks : List NotionBlock) :
    ((dfs_notion_tree hash db document_id ts block_id depth position blocks).metadataRows.map
        (·.document_element_id)) =
      (dfs_notion_tree hash db document_id ts block_id depth position blocks).newElements ∧
    ((dfs_notion_tree hash db document_id ts block_id depth position blocks).metadataRows.all
      (fun r => (db.find? (fun e => e.id == r.document_element_id)).isNone)) = true :=
  dfs_metadata_only_for_new hash db document_id ts block_id depth position blocks

/-- C6 counterexample: an update of a pre-existing document in which no
element changed still enqueues the two diff jobs, while the snapshot status is
set to `done`. -/
theorem diff_jobs_enqueued_without_changes_cex :
    (sync_from_notion id ["page-1"] unchangedStore 9 preSnapshot "page-1"
        (.success [unchangedBlock])).diffJobsEnqueued = true ∧
    (sync_from_notion id ["page-1"] unchangedStore 9 preSnapshot "page-1"
        (.success [unchangedBlock])).snapshot.status = "done" := by
  constructor
  · rfl
  · simp [sync_from_notion, unchangedStore, unchangedBlock, dfs_notion_tree, emptyDfsResult,
      extract_text_from_rich_text, List.find?, String.join, preSnapshot]

/-- C6 corrected: after a successful normalization the two diff jobs are
enqueued exactly when the document pre-existed, regardless of whether any
element changed; the status is `done` exactly when no element changed or this
is a first ingestion, and `processing_diffs` otherwise. -/
theorem diff_fanout_on_update_and_status_cases (hash : String → String)
    (documentDb : List String) (db : List DocumentElement) (ts : Nat) (snapshot : Snapshot)
    (notion_page_id : String) (blocks : List NotionBlock) :
    (sync_from_notion hash documentDb db ts snapshot notion_page_id
        (.success blocks)).diffJobsEnqueued = documentDb.contains notion_page_id ∧
    ((sync_from_notion hash documentDb db ts snapshot notion_page_id
        (.success blocks)).snapshot.status = "done" ↔
      ((dfs_notion_tree hash db notion_page_id ts notion_page_id 0 0 blocks).changed.isEmpty
        || !documentDb.contains notion_page_id) = true) ∧
    ((sync_from_notion hash documentDb db ts snapshot notion_page_id
        (.success blocks)).snapshot.status = "processing_diffs" ↔
      ((dfs_notion_tree hash db notion_page_id ts notion_page_id 0 0 blocks).changed.isEmpty
        || !documentDb.contains notion_page_id) = false) := by
  have hstat : (sync_from_notion hash documentDb db ts snapshot notion_page_id
      (.success blocks)).snapshot.status =
      if ((dfs_notion_tree hash db notion_page_id ts notion_page_id 0 0 blocks).changed.isEmpty
          || !documentDb.contains notion_page_id) then "done" else "processing_diffs" := rfl
  refine ⟨rfl, ?_, ?_⟩ <;> rw [hstat] <;>
    cases hcond : ((dfs_notion_tree hash db notion_page_id ts notion_page_id 0 0
        blocks).changed.isEmpty || !documentDb.contains notion_page_id) <;>
      simp

/-- C7 (code bug): running the structure diff for a snapshot with no previous
snapshot is not a no-op: the missing return after the warning makes the code
read `document_structure` off `None`, so the job raises `AttributeError`, the
generic handler sets the snapshot status to `error` with an error message, and
no structure-diff payload is written. -/
theorem diff_structure_without_previous_snapshot_errors :
    diff_structure (fun _ _ => "") (some orphanSnapshot) none [] =
      (some { orphanSnapshot with
                status := "error"
                error := some "Structure diff failed: NoneType has no attribute" },
       some PyExc.attributeError) ∧
    orphanSnapshot.status = "processing_diffs" ∧
    orphanSnapshot.document_structure_diff = none := ⟨rfl, rfl, rfl⟩

/-- C8 counterexample: a source-fetch (`APIResponseError`) failure aborts the
transaction — nothing is persisted — but nothing is recorded on the snapshot
either: the row is left exactly as it was (the pending mark attempted at
dispatch is rolled back, never committed), so its status is still `open`, not
`error`, and it carries no error message. -/
theorem api_error_leaves_snapshot_unrecorded_cex :
    sync_from_notion id [] [] 4 preSnapshot "page-1" (.apiError "rate limited") =
      { persistedElements := [], persistedMetadata := [], persistedContent := [],
        snapshot := preSnapshot,
        diffJobsEnqueued := false, raised := some PyExc.apiResponseError } ∧
    preSnapshot.status = "open" ∧
    ("open" : String) ≠ "error" ∧
    preSnapshot.error = none :=
  ⟨rfl, rfl, by decide, rfl⟩

/-- C8 corrected: every error during the traversal aborts the enclosing
transaction, so no element, metadata or content row of the pass is persisted;
for every non-API exception the snapshot is recorded with status `error` and
an error message, but an `APIResponseError` is re-raised without recording
anything on the snapshot — the row keeps its prior status and error (the
pending mark set at dispatch runs in a session that never commits). -/
theorem sync_error_handling_aborts_and_records (hash : String → String)
    (documentDb : List String) (db : List DocumentElement) (ts : Nat)
    (snapshot : Snapshot) (notion_page_id : String) (msg : String) :
    (sync_from_notion hash documentDb db ts snapshot notion_page_id (.apiError msg) =
      { persistedElements := [], persistedMetadata := [], persistedContent := [],
        snapshot := snapshot,
        diffJobsEnqueued := false, raised := some PyExc.apiResponseError }) ∧
    (sync_from_notion hash documentDb db ts snapshot notion_page_id (.otherError msg) =
      { persistedElements := [], persistedMetadata := [], persistedContent := [],
        snapshot :=
          { snapshot with
            status := "error"
            error := some ("Processing failed: " ++ msg)
            executed_at := some ts },
        diffJobsEnqueued := false, raised := some PyExc.otherError }) := ⟨rfl, rfl⟩

/-- C9 counterexample: a snapshot whose persisted `changed_elements` column is
malformed JSON makes `diff_elements` re-raise the decode error without setting
the snapshot status to `error` — the snapshot is returned untouched, still
`pending` with no error message. -/
theorem json_decode_error_skips_error_status_cex :
    diff_elements (fun _ => []) (fun _ _ _ => "") (some malformedSnapshot) =
      (some malformedSnapshot, some PyExc.jsonDecodeError) ∧
    malformedSnapshot.status = "pending" ∧
    malformedSnapshot.error = none := ⟨rfl, rfl, rfl⟩

/-- C9 corrected: after the snapshot is found, each diff job records status
`error` with a message for its internal failures (NULL payloads, missing
previous snapshot) — except that a JSON-decode failure of a persisted payload
is re-raised without recording an error status; and one job's run never
changes the other job's output field: the content-diff mapping the element job
writes is the same whether or not the structure job ran first, and vice
versa. -/
theorem diff_job_error_isolation (jdiff : List DocStructure → List DocStructure → String)
    (contentPair : String → List DocumentElementContent)
    (udiff : String → DocumentElementContent → DocumentElementContent → String)
    (s old_snapshot_row : Snapshot) (old_snapshot : Option Snapshot)
    (new_structure : List DocStructure) :
    (diff_elements contentPair udiff (some { s with changed_elements := some .malformed }) =
      (some { s with changed_elements := some .malformed }, some PyExc.jsonDecodeError)) ∧
    (diff_elements contentPair udiff (some { s with changed_elements := none }) =
      (some
        { s with
          changed_elements := none
          status := "error"
          error := some "Element diff failed: the JSON object must be str" },
       some PyExc.typeError)) ∧
    (diff_structure jdiff (some s)
        (some { old_snapshot_row with document_structure := some .malformed }) new_structure =
      (some s, some PyExc.jsonDecodeError)) ∧
    (diff_structure jdiff (some s) none new_structure =
      (some
        { s with
          status := "error"
          error := some "Structure diff failed: NoneType has no attribute" },
       some PyExc.attributeError)) ∧
    ((diff_elements contentPair udiff
          (diff_structure jdiff (some s) old_snapshot new_structure).1).1.map
        (fun t => t.changed_elements_diff) =
      (diff_elements contentPair udiff (some s)).1.map (fun t => t.changed_elements_diff)) ∧
    ((diff_structure jdiff (diff_elements contentPair udiff (some s)).1 old_snapshot
          new_structure).1.map (fun t => t.document_structure_diff) =
      (diff_structure jdiff (some s) old_snapshot new_structure).1.map
        (fun t => t.document_structure_diff)) := by
  obtain ⟨st, er, ex, ds, dsd, ce, ced⟩ := s
  refine ⟨rfl, rfl, rfl, rfl, ?_, ?_⟩
  · rcases old_snapshot with _ | old
    · rcases ce with _ | pv
      · rfl
      · rcases pv with v | _ <;> rfl
    · obtain ⟨ost, oer, oex, ods, odsd, oce, oced⟩ := old
      rcases ods with _ | opv
      · rcases ce with _ | pv
        · rfl
        · rcases pv with v | _ <;> rfl
      · rcases opv with ov | _ <;>
          rcases ce with _ | pv
        · rfl
        · rcases pv with v | _ <;> rfl
        · rfl
        · rcases pv with v | _ <;> rfl
  · rcases old_snapshot with _ | old
    · rcases ce with _ | pv
      · rfl
      · rcases pv with v | _ <;> rfl
    · obtain ⟨ost, oer, oex, ods, odsd, oce, oced⟩ := old
      rcases ods with _ | opv
      · rcases ce with _ | pv
        · rfl
        · rcases pv with v | _ <;> rfl
      · rcases opv with ov | _ <;>
          rcases ce with _ | pv
        · rfl
        · rcases pv with v | _ <;> rfl
        · rfl
        · rcases pv with v | _ <;> rfl

/-- C10: for a valid-JSON webhook event that is not a page/page event, the
handler reaches the response expression with `snapshot_id` unassigned, so it
raises and the caller receives HTTP 500, and no snapshot is created. -/
theorem webhook_non_page_event_returns_500 (fresh_snapshot_id : String)
    (event_type entity_type entity_id : Option String)
    (h : event_type ≠ some "page" ∨ entity_type ≠ some "page") :
    handle_notion_webhook fresh_snapshot_id event_type entity_type entity_id =
      { createdSnapshots := [], response := .error 500 } := by
  have hcond : ¬ (event_type = some "page" ∧ entity_type = some "page") := by
    rcases h with h1 | h2
    · exact fun hab => h1 hab.1
    · exact fun hab => h2 hab.2
  simp [handle_notion_webhook, hcond]

/-- Witness for C10: a concrete non-page event (a comment event) yields HTTP
500 and creates no snapshot. -/
theorem webhook_non_page_event_returns_500_witness :
    ((some "comment" : Option String) ≠ some "page" ∨
      (some "page" : Option String) ≠ some "page") ∧
    handle_notion_webhook "snap-1" (some "comment") (some "page") (some "block-9") =
      { createdSnapshots := [], response := .error 500 } :=
  ⟨Or.inl (by decide),
   webhook_non_page_event_returns_500 "snap-1" (some "comment") (some "page") (some "block-9")
     (Or.inl (by decide))⟩

end AtlasForge
